import Mathlib

set_option maxRecDepth 8000

/-!
Shallow embedding of the motion-classification and display-state-machine core
of the rs-esp32-aichat firmware, together with proofs of its specification
properties.

Modelling conventions:
* Rust f32 values are modelled as rationals; the integer casts used by the
  data-fingerprint function are modelled with explicit saturation/truncation
  exactly as Rust defines the f32-to-u32 cast.
* The two irrational helper functions (vector magnitude via sqrt, tilt angle
  via acos) produce real-valued inputs to the otherwise exact decision logic;
  the embedding therefore carries a sample's derived magnitudes and tilt angle
  as fields next to the raw six-axis data, and embeds every comparison,
  counter update, cache check and threshold check of the source exactly.
* Stateful Rust methods on self are functions returning an updated copy of
  the state; methods that perform a screen clear additionally return a Bool
  recording whether the clear side effect happened.
-/

/-- Motion state enumeration from motion_detector.rs. -/
inductive MotionState where
  | Still
  | Shaking
  | Tilting
deriving DecidableEq, BEq, Repr

/- Detection configuration constants, from the MotionConfig impl in
motion_detector.rs. -/
namespace MotionConfig

/-- Minimum number of consecutive shake detections (u32 constant 12). -/
def SHAKE_COUNT_THRESHOLD : Nat := 12

/-- Stable-sample count that resets the shake counter (u32 constant 10). -/
def STABLE_COUNT_THRESHOLD : Nat := 10

/-- Default acceleration-change threshold in mg. -/
def DEFAULT_ACCEL_THRESHOLD : ℚ := 800

/-- Default gyroscope threshold in degrees per second. -/
def DEFAULT_GYRO_THRESHOLD : ℚ := 120

/-- Nominal gravity in mg. -/
def GRAVITY_NOMINAL : ℚ := 1000

/-- Default tilt-angle threshold in degrees. -/
def DEFAULT_TILT_THRESHOLD : ℚ := 45

/-- Minimum valid acceleration threshold, guarding the division. -/
def MIN_VALID_ACCEL_THRESHOLD : ℚ := 10

/-- Maximum valid tilt angle in degrees. -/
def MAX_TILT_ANGLE : ℚ := 90

end MotionConfig

/-- Raw sensor sample, from SensorData in qmi8658/driver.rs: six axis values,
temperature and a timestamp. -/
structure SensorData where
  accel_x : ℚ
  accel_y : ℚ
  accel_z : ℚ
  gyro_x : ℚ
  gyro_y : ℚ
  gyro_z : ℚ
  temperature : ℚ
  timestamp : Nat
deriving DecidableEq, Repr

/-- A sensor sample together with the derived quantities that
calculate_magnitude and calculate_tilt_angle compute from it with
floating-point sqrt and acos.  Those two functions are irrational-valued, so
the embedding takes their outputs as given inputs; all decision logic
downstream of them is embedded exactly. -/
structure DerivedSample where
  data : SensorData
  accel_magnitude : ℚ
  gyro_magnitude : ℚ
  tilt_angle : ℚ
deriving DecidableEq, Repr

/-- Cached detection result, from CachedDetectionResult in
motion_detector.rs. -/
structure CachedDetectionResult where
  motion_state : MotionState
  accel_magnitude : ℚ
  gyro_magnitude : ℚ
  tilt_angle : ℚ
  is_shaking : Bool
  is_tilting : Bool
deriving DecidableEq, Repr

/-- The motion detector state, from MotionDetector in motion_detector.rs. -/
structure MotionDetector where
  accel_threshold : ℚ
  gyro_threshold : ℚ
  tilt_threshold : ℚ
  prev_accel_magnitude : ℚ
  shake_count : Nat
  stable_count : Nat
  cached_result : Option CachedDetectionResult
  last_sensor_data_hash : Nat
deriving DecidableEq, Repr

/-- Rust's saturating cast from f32 to u32 (as u32): negative values and NaN
go to 0, values at or above 2^32 go to u32::MAX, other values truncate toward
zero. -/
def rustCastU32 (q : ℚ) : Nat :=
  if q ≤ 0 then 0
  else if ((2 : ℚ) ^ 32) ≤ q then 2 ^ 32 - 1
  else q.floor.toNat

/-- Whether an Except value is the ok variant. -/
def exceptIsOk {α : Type} : Except String α → Bool
  | .ok _ => true
  | .error _ => false

/-- MotionDetector::new, the default construction. -/
def MotionDetector.new : MotionDetector :=
  { accel_threshold := MotionConfig.DEFAULT_ACCEL_THRESHOLD
    gyro_threshold := MotionConfig.DEFAULT_GYRO_THRESHOLD
    tilt_threshold := MotionConfig.DEFAULT_TILT_THRESHOLD
    prev_accel_magnitude := 0
    shake_count := 0
    stable_count := 0
    cached_result := none
    last_sensor_data_hash := 0 }

/-- MotionDetector::with_config: validated construction.  The three bail
branches are embedded in source order. -/
def MotionDetector.with_config (accel_threshold gyro_threshold tilt_threshold : ℚ) :
    Except String MotionDetector :=
  if accel_threshold < MotionConfig.MIN_VALID_ACCEL_THRESHOLD then
    .error ("accel threshold too small")
  else if gyro_threshold ≤ 0 then
    .error ("gyro threshold must be positive")
  else if tilt_threshold ≤ 0 ∨ MotionConfig.MAX_TILT_ANGLE < tilt_threshold then
    .error ("tilt threshold invalid")
  else
    .ok { accel_threshold := accel_threshold
          gyro_threshold := gyro_threshold
          tilt_threshold := tilt_threshold
          prev_accel_magnitude := 0
          shake_count := 0
          stable_count := 0
          cached_result := none
          last_sensor_data_hash := 0 }

/-- MotionDetector::calculate_data_hash: each of the six axis values is
scaled by 1000, cast to u32, then the six u32 values are shifted into one
u64 with shifts 40/32/24/16/8/0 and combined with bitwise or.  The left
shifts are u64 shifts, so bits shifted past position 63 are dropped, which
the explicit mod 2^64 captures. -/
def calculate_data_hash (data : SensorData) : Nat :=
  let ax := rustCastU32 (data.accel_x * 1000)
  let ay := rustCastU32 (data.accel_y * 1000)
  let az := rustCastU32 (data.accel_z * 1000)
  let gx := rustCastU32 (data.gyro_x * 1000)
  let gy := rustCastU32 (data.gyro_y * 1000)
  let gz := rustCastU32 (data.gyro_z * 1000)
  ((ax <<< 40) % 2 ^ 64) ||| ((ay <<< 32) % 2 ^ 64) ||| ((az <<< 24) % 2 ^ 64) |||
    ((gx <<< 16) % 2 ^ 64) ||| ((gy <<< 8) % 2 ^ 64) ||| gz

/-- MotionDetector::update_state_machine: the two-counter debounce.  A
qualifying sample increments shake_count and zeroes stable_count, returning
Shaking once shake_count reaches the confirmation threshold; a non-qualifying
sample increments stable_count and zeroes shake_count only once stable_count
reaches the stability threshold. -/
def MotionDetector.update_state_machine (d : MotionDetector) (is_shaking is_tilting : Bool) :
    MotionState × MotionDetector :=
  if is_shaking then
    let d' := { d with shake_count := d.shake_count + 1, stable_count := 0 }
    if MotionConfig.SHAKE_COUNT_THRESHOLD ≤ d'.shake_count then
      (MotionState.Shaking, d')
    else if is_tilting then (MotionState.Tilting, d') else (MotionState.Still, d')
  else
    let d₁ := { d with stable_count := d.stable_count + 1 }
    let d₂ :=
      if MotionConfig.STABLE_COUNT_THRESHOLD ≤ d₁.stable_count then
        { d₁ with shake_count := 0 }
      else d₁
    if is_tilting then (MotionState.Tilting, d₂) else (MotionState.Still, d₂)

/-- MotionDetector::calculate_motion_state: computes the acceleration delta
against the previous magnitude (zero on the first call, when the stored
previous magnitude is not positive), decides raw shaking and raw tilting,
updates the magnitude baseline, and runs the debounce state machine. -/
def MotionDetector.calculate_motion_state (d : MotionDetector) (s : DerivedSample) :
    CachedDetectionResult × MotionDetector :=
  let accel_magnitude := s.accel_magnitude
  let gyro_magnitude := s.gyro_magnitude
  let accel_change :=
    if 0 < d.prev_accel_magnitude then |accel_magnitude - d.prev_accel_magnitude| else 0
  let is_shaking :=
    decide (d.accel_threshold < accel_change) && decide (d.gyro_threshold < gyro_magnitude)
  let tilt_angle := s.tilt_angle
  let is_tilting := decide (d.tilt_threshold < tilt_angle)
  let d' := { d with prev_accel_magnitude := accel_magnitude }
  let (motion_state, d'') := d'.update_state_machine is_shaking is_tilting
  ({ motion_state := motion_state
     accel_magnitude := accel_magnitude
     gyro_magnitude := gyro_magnitude
     tilt_angle := tilt_angle
     is_shaking := is_shaking
     is_tilting := is_tilting }, d'')

/-- MotionDetector::detect_motion: the cached entry point.  When a cached
result exists and the data fingerprint matches, the cached state is returned
and nothing is recomputed; otherwise the result is computed and cached. -/
def MotionDetector.detect_motion (d : MotionDetector) (s : DerivedSample) :
    MotionState × MotionDetector :=
  let data_hash := calculate_data_hash s.data
  match d.cached_result with
  | some cached =>
      if data_hash = d.last_sensor_data_hash then
        (cached.motion_state, d)
      else
        let (result, d') := d.calculate_motion_state s
        (result.motion_state,
          { d' with cached_result := some result, last_sensor_data_hash := data_hash })
  | none =>
      let (result, d') := d.calculate_motion_state s
      (result.motion_state,
        { d' with cached_result := some result, last_sensor_data_hash := data_hash })

/-- MotionDetector::invalidate_cache. -/
def MotionDetector.invalidate_cache (d : MotionDetector) : MotionDetector :=
  { d with cached_result := none, last_sensor_data_hash := 0 }

/-- MotionDetector::set_thresholds: validates both arguments before touching
any state, then writes both thresholds and clears the cache. -/
def MotionDetector.set_thresholds (d : MotionDetector) (accel_threshold gyro_threshold : ℚ) :
    Except String Unit × MotionDetector :=
  if accel_threshold < MotionConfig.MIN_VALID_ACCEL_THRESHOLD then
    (.error ("accel threshold too small"), d)
  else if gyro_threshold ≤ 0 then
    (.error ("gyro threshold must be positive"), d)
  else
    (.ok (),
      MotionDetector.invalidate_cache
        { d with accel_threshold := accel_threshold, gyro_threshold := gyro_threshold })

/-- MotionDetector::set_tilt_threshold: validates the argument before
touching any state, then writes the threshold and clears the cache. -/
def MotionDetector.set_tilt_threshold (d : MotionDetector) (tilt_threshold : ℚ) :
    Except String Unit × MotionDetector :=
  if tilt_threshold ≤ 0 ∨ MotionConfig.MAX_TILT_ANGLE < tilt_threshold then
    (.error ("tilt threshold invalid"), d)
  else
    (.ok (), MotionDetector.invalidate_cache { d with tilt_threshold := tilt_threshold })

/-- Runs the debounce state machine over a list of raw-shaking flags
(raw tilting held false), collecting the emitted motion states. -/
def runMachine (d : MotionDetector) : List Bool → List MotionState
  | [] => []
  | b :: rest =>
      let (m, d') := d.update_state_machine b false
      m :: runMachine d' rest

/-- Runs detect_motion over a list of samples, collecting the emitted motion
states. -/
def runDetect (d : MotionDetector) : List DerivedSample → List MotionState
  | [] => []
  | s :: rest =>
      let (m, d') := d.detect_motion s
      m :: runDetect d' rest

/-- Application display state enumeration, from AppState in app.rs (the
DisplayState enumeration in display.rs is identical). -/
inductive AppState where
  | Welcome
  | Main
  | Settings
  | Thinking
  | Dizziness
  | Tilting
  | Error (msg : String)
deriving DecidableEq, Repr

/-- The ChatApp display state machine from app.rs: the current state, the
ticks-since-entry counter incremented by update and reset by transition_to,
and the dizziness bookkeeping field.  The graphics handle is an external
collaborator; methods that clear the screen report that effect as a Bool. -/
structure ChatApp where
  state : AppState
  state_timer : Nat
  dizziness_start_time : Nat
deriving DecidableEq, Repr

/-- Minimum dwell in the dizziness state, in ticks (constant 60 in
ChatApp::can_exit_dizziness, 3 seconds at the 20 fps tick rate the source
documents). -/
def MIN_DIZZINESS_DURATION : Nat := 60

/-- Error-state timeout constant: ChatApp::update_error returns to Welcome
once state_timer exceeds 150. -/
def ERROR_TIMEOUT_TICKS : Nat := 150

/-- ChatApp::new. -/
def ChatApp.new : ChatApp :=
  { state := AppState.Welcome, state_timer := 0, dizziness_start_time := 0 }

/-- ChatApp::transition_to: a request to enter the state already occupied is
a no-op (no field changes and no screen clear); otherwise the state is
replaced, the tick counter is reset to 0 and the screen is cleared.  The
returned Bool records whether fill_screen was called. -/
def ChatApp.transition_to (app : ChatApp) (new_state : AppState) : ChatApp × Bool :=
  if app.state = new_state then (app, false)
  else ({ app with state := new_state, state_timer := 0 }, true)

/-- ChatApp::enter_welcome. -/
def ChatApp.enter_welcome (app : ChatApp) : ChatApp × Bool :=
  app.transition_to AppState.Welcome

/-- ChatApp::enter_main. -/
def ChatApp.enter_main (app : ChatApp) : ChatApp × Bool :=
  app.transition_to AppState.Main

/-- ChatApp::enter_settings. -/
def ChatApp.enter_settings (app : ChatApp) : ChatApp × Bool :=
  app.transition_to AppState.Settings

/-- ChatApp::enter_thinking. -/
def ChatApp.enter_thinking (app : ChatApp) : ChatApp × Bool :=
  app.transition_to AppState.Thinking

/-- ChatApp::enter_dizziness: early-returns when already in the dizziness
state, otherwise records the entry time, transitions, and zeroes the
recorded entry time again (transition_to has reset state_timer). -/
def ChatApp.enter_dizziness (app : ChatApp) : ChatApp × Bool :=
  if app.state = AppState.Dizziness then (app, false)
  else
    let app₁ := { app with dizziness_start_time := app.state_timer }
    let (app₂, cleared) := app₁.transition_to AppState.Dizziness
    ({ app₂ with dizziness_start_time := 0 }, cleared)

/-- ChatApp::enter_tilting: kept out while dizzy (dizziness has priority),
otherwise a plain transition. -/
def ChatApp.enter_tilting (app : ChatApp) : ChatApp × Bool :=
  if app.state = AppState.Dizziness then (app, false)
  else app.transition_to AppState.Tilting

/-- ChatApp::enter_error. -/
def ChatApp.enter_error (app : ChatApp) (error_msg : String) : ChatApp × Bool :=
  app.transition_to (AppState.Error error_msg)

/-- ChatApp::can_exit_dizziness: false outside the dizziness state, else the
tick counter must have reached the minimum dwell. -/
def ChatApp.can_exit_dizziness (app : ChatApp) : Bool :=
  if app.state ≠ AppState.Dizziness then false
  else decide (MIN_DIZZINESS_DURATION ≤ app.state_timer)

/-- ChatApp::exit_diszziness (spelling kept from the source): leaves for the
main state only when the dwell guard allows it. -/
def ChatApp.exit_diszziness (app : ChatApp) : ChatApp × Bool :=
  if app.can_exit_dizziness then app.enter_main else (app, false)

/-- ChatApp::back: Welcome and Tilting go to Main; Dizziness goes to Main
only behind the dwell guard; every other state ignores the input. -/
def ChatApp.back (app : ChatApp) : ChatApp × Bool :=
  match app.state with
  | AppState.Welcome => app.enter_main
  | AppState.Dizziness =>
      if app.can_exit_dizziness then app.exit_diszziness else (app, false)
  | AppState.Tilting => app.enter_main
  | _ => (app, false)

/-- ChatApp::update_error: draws the error screen and auto-returns to
Welcome once the tick counter exceeds the 150-tick timeout. -/
def ChatApp.update_error (app : ChatApp) : ChatApp × Bool :=
  if ERROR_TIMEOUT_TICKS < app.state_timer then app.enter_welcome else (app, false)

/-- ChatApp::update: increments the tick counter and dispatches on the
current state.  Every branch other than the error state only draws (no state
change); the error branch may time out to Welcome. -/
def ChatApp.update (app : ChatApp) : ChatApp × Bool :=
  let app := { app with state_timer := app.state_timer + 1 }
  match app.state with
  | AppState.Welcome => (app, false)
  | AppState.Main => (app, false)
  | AppState.Settings => (app, false)
  | AppState.Error _ => app.update_error
  | AppState.Thinking => (app, false)
  | AppState.Dizziness => (app, false)
  | AppState.Tilting => (app, false)

/-- Iterates ChatApp::update, discarding the draw effects. -/
def iterUpdate (k : Nat) (app : ChatApp) : ChatApp :=
  (fun a => (ChatApp.update a).1)^[k] app

/-- Fixed per-cycle delay of the motion actor loop, in milliseconds: the
FreeRtos delay at the end of MotionActor::run in actors/motion.rs. -/
def motionActorDelayMs : Nat := 500

/-- Command-receive timeout of the wifi actor loop, in milliseconds: the
recv_timeout duration in WifiActor::run in actors/wifi.rs. -/
def wifiCommandRecvTimeoutMs : Nat := 1000

/-- Heartbeat interval of the motion actor, in microseconds, from
actors/motion.rs. -/
def heartbeatIntervalUs : Int := 5000000

/-- Mutable bookkeeping of MotionActor besides the detector: the last
published state and the time of the last publish. -/
structure MotionActorState where
  last_state : Option MotionState
  last_sent_time : Int
deriving DecidableEq, Repr

/-- One iteration of the MotionActor::run loop body: on a successful sensor
read the sample is classified and an event is published exactly when the
state changed or the heartbeat interval has elapsed; on a read error the
cycle only logs.  The returned list holds the events published this cycle. -/
def MotionActor.runCycle (det : MotionDetector) (st : MotionActorState)
    (read : Except String DerivedSample) (time : Int) :
    (MotionDetector × MotionActorState) × List MotionState :=
  match read with
  | .ok sensor_data =>
      let (motion_state, det') := det.detect_motion sensor_data
      let should_send :=
        decide (st.last_state ≠ some motion_state) ||
          decide (heartbeatIntervalUs ≤ time - st.last_sent_time)
      if should_send then
        ((det', { last_state := some motion_state, last_sent_time := time }), [motion_state])
      else
        ((det', st), [])
  | .error _ => ((det, st), [])

/-- A concrete still sample: 5 mg of acceleration on the x axis, no
rotation; its magnitude is 5 and, being below the validity floor, its tilt
angle is 0. -/
def stillSampleA : DerivedSample :=
  { data := { accel_x := 5, accel_y := 0, accel_z := 0, gyro_x := 0, gyro_y := 0,
              gyro_z := 0, temperature := 0, timestamp := 0 }
    accel_magnitude := 5
    gyro_magnitude := 0
    tilt_angle := 0 }

/-- A second still sample with the same magnitudes but the acceleration on
the y axis. -/
def stillSampleB : DerivedSample :=
  { data := { accel_x := 0, accel_y := 5, accel_z := 0, gyro_x := 0, gyro_y := 0,
              gyro_z := 0, temperature := 0, timestamp := 0 }
    accel_magnitude := 5
    gyro_magnitude := 0
    tilt_angle := 0 }

/-- A sample whose only nonzero axis is accel_x = -1 mg.  Scaling by 1000
gives -1000, and Rust's saturating f32-to-u32 cast maps every negative value
to 0, so the fingerprint of this sample is 0. -/
def sampleNegOne : DerivedSample :=
  { data := { accel_x := -1, accel_y := 0, accel_z := 0, gyro_x := 0, gyro_y := 0,
              gyro_z := 0, temperature := 0, timestamp := 0 }
    accel_magnitude := 1
    gyro_magnitude := 0
    tilt_angle := 0 }

/-- A sample differing from sampleNegOne in the accel_x field (-2 mg), with
the same zero fingerprint because the negative scaled value again casts
to 0. -/
def sampleNegTwo : DerivedSample :=
  { data := { accel_x := -2, accel_y := 0, accel_z := 0, gyro_x := 0, gyro_y := 0,
              gyro_z := 0, temperature := 0, timestamp := 0 }
    accel_magnitude := 2
    gyro_magnitude := 0
    tilt_angle := 0 }

/-- Invariant carried through a gyro-silent run: the gyro threshold is
positive and whatever is cached is not a Shaking result. -/
def NoShakeInv (d : MotionDetector) : Prop :=
  0 < d.gyro_threshold ∧
    ∀ c, d.cached_result = some c → c.motion_state ≠ MotionState.Shaking

/- ------------------------------------------------------------------ -/
/- Helper lemmas                                                      -/
/- ------------------------------------------------------------------ -/

theorem iterUpdate_zero (app : ChatApp) : iterUpdate 0 app = app := rfl

theorem iterUpdate_succ (k : Nat) (app : ChatApp) :
    iterUpdate (k + 1) app = iterUpdate k (ChatApp.update app).1 := by
  simp [iterUpdate, Function.iterate_succ_apply]

theorem iterUpdate_succ_outer (k : Nat) (app : ChatApp) :
    iterUpdate (k + 1) app = (ChatApp.update (iterUpdate k app)).1 := by
  simp [iterUpdate, Function.iterate_succ_apply']

theorem update_of_dizzy (app : ChatApp) (h : app.state = AppState.Dizziness) :
    (ChatApp.update app).1 = { app with state_timer := app.state_timer + 1 } := by
  simp [ChatApp.update, h]

theorem update_of_error (app : ChatApp) (msg : String) (h : app.state = AppState.Error msg)
    (hb : app.state_timer + 1 ≤ ERROR_TIMEOUT_TICKS) :
    (ChatApp.update app).1 = { app with state_timer := app.state_timer + 1 } := by
  have h1 : ¬ (ERROR_TIMEOUT_TICKS < app.state_timer + 1) := by omega
  simp [ChatApp.update, h, ChatApp.update_error, h1]

/-- While in the dizziness state, repeated ticks never leave it and advance
the tick counter by one each time. -/
theorem dizzyState_iterUpdate (k : Nat) :
    ∀ app : ChatApp, app.state = AppState.Dizziness →
      (iterUpdate k app).state = AppState.Dizziness ∧
        (iterUpdate k app).state_timer = app.state_timer + k := by
  induction k with
  | zero => intro app h; simp [iterUpdate_zero, h]
  | succ n ih =>
      intro app h
      rw [iterUpdate_succ, update_of_dizzy app h]
      have := ih { app with state_timer := app.state_timer + 1 } (by simpa using h)
      simpa [Nat.add_assoc, Nat.add_comm 1 n] using this

/-- While in the error state and within the timeout bound, repeated ticks
never leave it and advance the tick counter by one each time. -/
theorem errorState_iterUpdate (k : Nat) :
    ∀ (app : ChatApp) (msg : String), app.state = AppState.Error msg →
      app.state_timer + k ≤ ERROR_TIMEOUT_TICKS →
      (iterUpdate k app).state = AppState.Error msg ∧
        (iterUpdate k app).state_timer = app.state_timer + k := by
  induction k with
  | zero => intro app msg h hb; simp [iterUpdate_zero, h]
  | succ n ih =>
      intro app msg h hb
      rw [iterUpdate_succ, update_of_error app msg h (by omega)]
      have := ih { app with state_timer := app.state_timer + 1 } msg (by simpa using h)
        (by simp; omega)
      simpa [Nat.add_assoc, Nat.add_comm 1 n] using this

theorem update_state_machine_false_not_shaking (d : MotionDetector) (t : Bool) :
    (d.update_state_machine false t).1 ≠ MotionState.Shaking := by
  simp only [MotionDetector.update_state_machine, Bool.false_eq_true, if_false]
  split <;> split <;> simp

theorem update_state_machine_gyro_threshold (d : MotionDetector) (b t : Bool) :
    ((d.update_state_machine b t).2).gyro_threshold = d.gyro_threshold := by
  cases b <;> cases t <;>
    simp only [MotionDetector.update_state_machine] <;>
    split_ifs <;> rfl

/-- With zero gyro magnitude the raw-shaking flag is false, so a full
recomputation can only produce Still or Tilting, and the gyro threshold is
untouched. -/
theorem calculate_motion_state_zero_gyro (d : MotionDetector) (s : DerivedSample)
    (hg : s.gyro_magnitude = 0) (hgt : 0 < d.gyro_threshold) :
    (d.calculate_motion_state s).1.motion_state ≠ MotionState.Shaking ∧
      (d.calculate_motion_state s).2.gyro_threshold = d.gyro_threshold := by
  have hsk : decide (d.gyro_threshold < s.gyro_magnitude) = false := by
    simp [hg, not_lt.mpr hgt.le]
  unfold MotionDetector.calculate_motion_state
  simp only [hsk, Bool.and_false]
  constructor
  · exact update_state_machine_false_not_shaking _ _
  · exact update_state_machine_gyro_threshold _ _ _

/-- detect_motion preserves the no-shaking invariant on gyro-silent samples
and never answers Shaking on them. -/
theorem detect_motion_zero_gyro (d : MotionDetector) (s : DerivedSample)
    (hg : s.gyro_magnitude = 0) (hd : NoShakeInv d) :
    (d.detect_motion s).1 ≠ MotionState.Shaking ∧ NoShakeInv (d.detect_motion s).2 := by
  obtain ⟨hgt, hc⟩ := hd
  have hcalc := calculate_motion_state_zero_gyro d s hg hgt
  unfold MotionDetector.detect_motion
  cases hcache : d.cached_result with
  | some cached =>
      by_cases hh : calculate_data_hash s.data = d.last_sensor_data_hash
      · simp only [hcache, hh, if_true]
        exact ⟨hc cached hcache, hgt, hc⟩
      · rcases hcm : d.calculate_motion_state s with ⟨r, d'⟩
        rw [hcm] at hcalc
        have hr1 : r.motion_state ≠ MotionState.Shaking := hcalc.1
        have hr2 : d'.gyro_threshold = d.gyro_threshold := hcalc.2
        simp only [hcache, hh, if_false, hcm]
        refine ⟨hr1, ?_, ?_⟩
        · simpa [hr2] using hgt
        · intro c hcc
          simp at hcc
          rw [← hcc]
          exact hr1
  | none =>
      rcases hcm : d.calculate_motion_state s with ⟨r, d'⟩
      rw [hcm] at hcalc
      have hr1 : r.motion_state ≠ MotionState.Shaking := hcalc.1
      have hr2 : d'.gyro_threshold = d.gyro_threshold := hcalc.2
      simp only [hcache, hcm]
      refine ⟨hr1, ?_, ?_⟩
      · simpa [hr2] using hgt
      · intro c hcc
        simp at hcc
        rw [← hcc]
        exact hr1

/-- Running detect_motion over any gyro-silent sample list from a state
satisfying the invariant never produces Shaking. -/
theorem runDetect_zero_gyro (samples : List DerivedSample) :
    ∀ d : MotionDetector, NoShakeInv d → (∀ s ∈ samples, s.gyro_magnitude = 0) →
      MotionState.Shaking ∉ runDetect d samples := by
  induction samples with
  | nil => intro d _ _; simp [runDetect]
  | cons s rest ih =>
      intro d hd hg
      have hs := detect_motion_zero_gyro d s (hg s (by simp)) hd
      rcases hdm : d.detect_motion s with ⟨m, d'⟩
      rw [hdm] at hs
      simp only [runDetect, hdm, List.mem_cons, not_or]
      exact ⟨fun he => hs.1 he.symm, ih d' hs.2 (fun x hx => hg x (by simp [hx]))⟩

theorem NoShakeInv_new : NoShakeInv MotionDetector.new := by
  constructor
  · norm_num [MotionDetector.new, MotionConfig.DEFAULT_GYRO_THRESHOLD]
  · intro c h
    simp [MotionDetector.new] at h

/-- From an empty cache, after classifying one sample, a second call with
any sample of equal fingerprint returns the first call's cached answer and
leaves the detector untouched. -/
theorem detect_motion_hash_collision (d : MotionDetector) (s1 s2 : DerivedSample)
    (hd : d.cached_result = none)
    (hh : calculate_data_hash s2.data = calculate_data_hash s1.data) :
    MotionDetector.detect_motion (d.detect_motion s1).2 s2 = d.detect_motion s1 := by
  unfold MotionDetector.detect_motion
  rcases hcm : d.calculate_motion_state s1 with ⟨r, d'⟩
  simp [hd, hcm, hh]

/- ------------------------------------------------------------------ -/
/- Claim theorems                                                     -/
/- ------------------------------------------------------------------ -/

/-- C1 counterexample: starting from a fresh detector, eleven qualifying
samples, one non-qualifying sample, and eleven more qualifying samples DO
yield a Shaking result, refuting the claim that this sequence never yields
Shaking at any point.  The single non-qualifying sample leaves the shake
counter at 11 (the stability threshold of 10 consecutive stable samples is
not reached), so the very next qualifying sample pushes it to 12. -/
theorem shake_break_sequence_yields_shaking :
    (runMachine MotionDetector.new
        (List.replicate 11 true ++ [false] ++ List.replicate 11 true)).contains
      MotionState.Shaking = true := by decide

/-- C1 (amended): from a fresh detector, exactly 12 consecutive qualifying
samples are required before the first Shaking result (no prefix of fewer
than 12 qualifying samples ever yields Shaking, and the twelfth does);
however the sequence of 11 qualifying, one non-qualifying, and 11 more
qualifying samples yields Shaking starting at the first qualifying sample
after the break, because a single non-qualifying sample does not reset the
shake counter (the stability threshold is 10 consecutive stable samples). -/
theorem shake_confirmation_exactly_twelve :
    runMachine MotionDetector.new (List.replicate 12 true) =
      List.replicate 11 MotionState.Still ++ [MotionState.Shaking] ∧
    ((List.range 12).all fun k =>
        !((runMachine MotionDetector.new (List.replicate k true)).contains
            MotionState.Shaking)) = true ∧
    runMachine MotionDetector.new
        (List.replicate 11 true ++ [false] ++ List.replicate 11 true) =
      List.replicate 12 MotionState.Still ++ List.replicate 11 MotionState.Shaking := by
  decide

/-- C2: over any sequence of samples whose acceleration magnitude is a
constant m and whose gyro magnitude is zero throughout, a freshly
constructed detector never returns Shaking: raw shaking needs the gyro
magnitude to exceed the (positive) gyro threshold, so the shake counter is
never advanced. -/
theorem constant_accel_zero_gyro_never_shaking (samples : List DerivedSample) (m : ℚ)
    (_hacc : ∀ s ∈ samples, s.accel_magnitude = m)
    (hgyro : ∀ s ∈ samples, s.gyro_magnitude = 0) :
    MotionState.Shaking ∉ runDetect MotionDetector.new samples :=
  runDetect_zero_gyro samples MotionDetector.new NoShakeInv_new hgyro

/-- Witness for C2 at a concrete two-sample sequence of constant magnitude 5
and zero rotation. -/
theorem constant_accel_zero_gyro_never_shaking_witness :
    (∀ s ∈ [stillSampleA, stillSampleB], s.accel_magnitude = 5) ∧
    (∀ s ∈ [stillSampleA, stillSampleB], s.gyro_magnitude = 0) ∧
    MotionState.Shaking ∉ runDetect MotionDetector.new [stillSampleA, stillSampleB] :=
  ⟨by decide, by decide,
    constant_accel_zero_gyro_never_shaking [stillSampleA, stillSampleB] 5
      (by decide) (by decide)⟩

/-- C3: entering the dizziness state from any other state and then ticking k
times, a back/Still event is a complete no-op while k is below the 60-tick
(3 second) minimum dwell, and transitions to the main state as soon as the
dwell has elapsed. -/
theorem dizzy_min_dwell (app : ChatApp) (k : Nat) (h : app.state ≠ AppState.Dizziness) :
    (k < MIN_DIZZINESS_DURATION →
      ChatApp.back (iterUpdate k (ChatApp.enter_dizziness app).1) =
        (iterUpdate k (ChatApp.enter_dizziness app).1, false)) ∧
    (MIN_DIZZINESS_DURATION ≤ k →
      (ChatApp.back (iterUpdate k (ChatApp.enter_dizziness app).1)).1.state =
        AppState.Main) := by
  have he : (ChatApp.enter_dizziness app).1 =
      { state := AppState.Dizziness, state_timer := 0, dizziness_start_time := 0 } := by
    simp [ChatApp.enter_dizziness, ChatApp.transition_to, h]
  rw [he]
  have hiter := dizzyState_iterUpdate k
    { state := AppState.Dizziness, state_timer := 0, dizziness_start_time := 0 } rfl
  obtain ⟨hs, ht⟩ := hiter
  constructor
  · intro hk
    have hcan : (iterUpdate k
        { state := AppState.Dizziness, state_timer := 0, dizziness_start_time := 0 }
          : ChatApp).can_exit_dizziness = false := by
      simp [ChatApp.can_exit_dizziness, hs, ht]
      omega
    simp [ChatApp.back, hs, hcan]
  · intro hk
    have hcan : (iterUpdate k
        { state := AppState.Dizziness, state_timer := 0, dizziness_start_time := 0 }
          : ChatApp).can_exit_dizziness = true := by
      simp [ChatApp.can_exit_dizziness, hs, ht]
      omega
    simp [ChatApp.back, hs, hcan, ChatApp.exit_diszziness, ChatApp.enter_main,
      ChatApp.transition_to]

/-- Witness for C3: from the fresh application, after entering dizziness and
ticking exactly 60 times, a back event reaches the main state. -/
theorem dizzy_min_dwell_witness :
    ChatApp.new.state ≠ AppState.Dizziness ∧
    (ChatApp.back (iterUpdate 60 (ChatApp.enter_dizziness ChatApp.new).1)).1.state =
      AppState.Main :=
  ⟨by decide, (dizzy_min_dwell ChatApp.new 60 (by decide)).2 (by decide)⟩

/-- C4 counterexample: after exactly 150 ticks (the configured timeout tick
count; the constant compared against is 150) the state is still Error, not
Welcome: the auto-return fires only on the tick on which the counter first
exceeds 150. -/
theorem error_still_error_at_timeout_tick :
    (iterUpdate ERROR_TIMEOUT_TICKS (ChatApp.enter_error ChatApp.new ("boom")).1).state =
      AppState.Error ("boom") ∧
    AppState.Error ("boom") ≠ AppState.Welcome := by decide

/-- C4 (amended): from every state, enter_error moves the machine to Error
carrying the fault message; after a genuine entry the state remains Error
through the first 150 ticks and becomes Welcome on tick 151 — the first
update on which the tick counter exceeds the configured 150-tick timeout —
and never earlier. -/
theorem error_entry_and_timeout (app : ChatApp) (msg : String)
    (h : app.state ≠ AppState.Error msg) :
    (∀ a : ChatApp, (ChatApp.enter_error a msg).1.state = AppState.Error msg) ∧
    (∀ k, k ≤ ERROR_TIMEOUT_TICKS →
      (iterUpdate k (ChatApp.enter_error app msg).1).state = AppState.Error msg) ∧
    (iterUpdate (ERROR_TIMEOUT_TICKS + 1) (ChatApp.enter_error app msg).1).state =
      AppState.Welcome := by
  have he : (ChatApp.enter_error app msg).1 =
      { app with state := AppState.Error msg, state_timer := 0 } := by
    simp [ChatApp.enter_error, ChatApp.transition_to, h]
  refine ⟨?_, ?_, ?_⟩
  · intro a
    by_cases ha : a.state = AppState.Error msg
    · simp [ChatApp.enter_error, ChatApp.transition_to, ha]
    · simp [ChatApp.enter_error, ChatApp.transition_to, ha]
  · intro k hk
    rw [he]
    exact (errorState_iterUpdate k { app with state := AppState.Error msg, state_timer := 0 }
      msg rfl (by simpa using hk)).1
  · rw [he, iterUpdate_succ_outer]
    obtain ⟨hs, ht⟩ := errorState_iterUpdate ERROR_TIMEOUT_TICKS
      { app with state := AppState.Error msg, state_timer := 0 } msg rfl (by simp)
    have hgt : ERROR_TIMEOUT_TICKS <
        (iterUpdate ERROR_TIMEOUT_TICKS
          { app with state := AppState.Error msg, state_timer := 0 }).state_timer + 1 := by
      omega
    simp [ChatApp.update, hs, ChatApp.update_error, hgt, ChatApp.enter_welcome,
      ChatApp.transition_to]

/-- Witness for C4 (amended): from the fresh application the fault message x
produces the Error state and the machine is back at Welcome on tick 151. -/
theorem error_entry_and_timeout_witness :
    ChatApp.new.state ≠ AppState.Error ("x") ∧
    (iterUpdate (ERROR_TIMEOUT_TICKS + 1) (ChatApp.enter_error ChatApp.new ("x")).1).state =
      AppState.Welcome :=
  ⟨by decide, (error_entry_and_timeout ChatApp.new ("x") (by decide)).2.2⟩

/-- C5: requesting a transition into the state already occupied is a
complete no-op: the returned application is bit-identical (tick counter and
dwell bookkeeping included) and the screen-clear flag is false.  The same
holds for dizziness re-entry through enter_dizziness and tilting re-entry
through enter_tilting. -/
theorem same_state_transition_noop (app : ChatApp) (s : AppState) (h : app.state = s) :
    app.transition_to s = (app, false) ∧
    (s = AppState.Dizziness → app.enter_dizziness = (app, false)) ∧
    (s = AppState.Tilting → app.enter_tilting = (app, false)) := by
  refine ⟨?_, ?_, ?_⟩
  · simp [ChatApp.transition_to, h]
  · intro hs
    simp [ChatApp.enter_dizziness, h, hs]
  · intro hs
    have hnd : app.state ≠ AppState.Dizziness := by
      rw [h, hs]
      simp
    simp [ChatApp.enter_tilting, hnd, ChatApp.transition_to, h, hs]

/-- Witness for C5 at a concrete application sitting in the dizziness state
with a nonzero tick counter. -/
theorem same_state_transition_noop_witness :
    (⟨AppState.Dizziness, 5, 0⟩ : ChatApp).state = AppState.Dizziness ∧
    (ChatApp.transition_to ⟨AppState.Dizziness, 5, 0⟩ AppState.Dizziness =
        (⟨AppState.Dizziness, 5, 0⟩, false) ∧
      (AppState.Dizziness = AppState.Dizziness →
        ChatApp.enter_dizziness ⟨AppState.Dizziness, 5, 0⟩ =
          (⟨AppState.Dizziness, 5, 0⟩, false)) ∧
      (AppState.Dizziness = AppState.Tilting →
        ChatApp.enter_tilting ⟨AppState.Dizziness, 5, 0⟩ =
          (⟨AppState.Dizziness, 5, 0⟩, false))) :=
  ⟨rfl, same_state_transition_noop ⟨AppState.Dizziness, 5, 0⟩ AppState.Dizziness rfl⟩

/-- C6: detect_motion is idempotent on repeated bit-identical input: for
every detector state and sample, a second call with the same sample returns
the same motion state and leaves every field of the detector (counters,
magnitude baseline, cache) exactly as the first call left them. -/
theorem detect_motion_idempotent (d : MotionDetector) (s : DerivedSample) :
    MotionDetector.detect_motion (d.detect_motion s).2 s = d.detect_motion s := by
  unfold MotionDetector.detect_motion
  cases hcache : d.cached_result with
  | some cached =>
      by_cases hh : calculate_data_hash s.data = d.last_sensor_data_hash
      · simp [hcache, hh]
      · rcases hcm : d.calculate_motion_state s with ⟨r, d'⟩
        simp [hcache, hh, hcm]
  | none =>
      rcases hcm : d.calculate_motion_state s with ⟨r, d'⟩
      simp [hcache, hcm]

/-- C7 counterexample: all three thresholds positive and the tilt threshold
at most 90 degrees, yet construction fails, because the acceleration
threshold 5 lies below the minimum valid floor of 10. -/
theorem with_config_rejects_positive_small_accel :
    (0 : ℚ) < 5 ∧ (0 : ℚ) < 1 ∧ (0 : ℚ) < 45 ∧ (45 : ℚ) ≤ 90 ∧
      exceptIsOk (MotionDetector.with_config 5 1 45) = false := by decide

/-- C7 (amended): construction with explicit configuration succeeds exactly
when the acceleration threshold is at least the minimum valid floor (10),
the gyro threshold is positive, and the tilt threshold is positive and at
most 90 degrees; otherwise it fails with an error.  (Classification itself,
detect_motion, is a total function of the detector state and sample and
cannot fail at call time.) -/
theorem with_config_ok_iff (a g t : ℚ) :
    exceptIsOk (MotionDetector.with_config a g t) = true ↔
      (MotionConfig.MIN_VALID_ACCEL_THRESHOLD ≤ a ∧ 0 < g ∧ 0 < t ∧
        t ≤ MotionConfig.MAX_TILT_ANGLE) := by
  unfold MotionDetector.with_config
  split_ifs with h1 h2 h3
  · simp only [exceptIsOk, Bool.false_eq_true, false_iff]
    rintro ⟨hA, -, -, -⟩
    exact absurd h1 (not_lt.mpr hA)
  · simp only [exceptIsOk, Bool.false_eq_true, false_iff]
    rintro ⟨-, hG, -, -⟩
    exact absurd h2 (not_le.mpr hG)
  · simp only [exceptIsOk, Bool.false_eq_true, false_iff]
    rintro ⟨-, -, hT1, hT2⟩
    rcases h3 with h3 | h3
    · exact absurd h3 (not_le.mpr hT1)
    · exact absurd h3 (not_lt.mpr hT2)
  · simp only [exceptIsOk, true_iff]
    push_neg at h3
    exact ⟨not_lt.mp h1, not_le.mp h2, h3.1, h3.2⟩

/-- C8 counterexample: the fixed per-cycle delay of the sensor actor loop is
500 milliseconds, not the claimed 50. -/
theorem motion_actor_delay_not_fifty :
    motionActorDelayMs = 500 ∧ motionActorDelayMs ≠ 50 := by decide

/-- C8 (amended): the sensor actor sleeps 500 ms after each
poll/classify/publish cycle, the network actor blocks on its command queue
with a 1000 ms timeout, and every sensor cycle publishes at most one
event. -/
theorem actor_cycle_quanta_and_event_bound :
    motionActorDelayMs = 500 ∧ wifiCommandRecvTimeoutMs = 1000 ∧
      ∀ (det : MotionDetector) (st : MotionActorState)
        (read : Except String DerivedSample) (time : Int),
        (MotionActor.runCycle det st read time).2.length ≤ 1 := by
  refine ⟨rfl, rfl, ?_⟩
  intro det st read time
  unfold MotionActor.runCycle
  cases read with
  | ok s =>
      rcases det.detect_motion s with ⟨m, det'⟩
      dsimp only
      split <;> simp
  | error e => simp

/-- C9: the sensor-data fingerprint is not injective: sampleNegOne and
sampleNegTwo differ in the accel_x field, yet both hash to the same value
(negative scaled components saturate to 0 in the u32 cast), so after
classifying the first sample a call with the second returns the first
sample's cached motion state and leaves the detector completely untouched
(in particular the magnitude baseline is not updated to the second sample's
magnitude). -/
theorem data_hash_not_injective_cache_confusion :
    sampleNegOne.data ≠ sampleNegTwo.data ∧
    calculate_data_hash sampleNegOne.data = calculate_data_hash sampleNegTwo.data ∧
    MotionDetector.detect_motion
        (MotionDetector.detect_motion MotionDetector.new sampleNegOne).2 sampleNegTwo =
      MotionDetector.detect_motion MotionDetector.new sampleNegOne := by
  have h1 : calculate_data_hash sampleNegOne.data = 0 := by
    norm_num [calculate_data_hash, sampleNegOne, rustCastU32]
  have h2 : calculate_data_hash sampleNegTwo.data = 0 := by
    norm_num [calculate_data_hash, sampleNegTwo, rustCastU32]
  have hh : calculate_data_hash sampleNegTwo.data = calculate_data_hash sampleNegOne.data :=
    h2.trans h1.symm
  refine ⟨?_, hh.symm, ?_⟩
  · norm_num [sampleNegOne, sampleNegTwo]
  · exact detect_motion_hash_collision MotionDetector.new sampleNegOne sampleNegTwo rfl hh

/-- C10: runtime threshold updates are atomic on failure: whenever
set_thresholds or set_tilt_threshold reports an error, the detector is
returned exactly as it was — thresholds, counters, magnitude baseline and
cache included. -/
theorem threshold_setters_atomic_on_failure (d : MotionDetector) (a g t : ℚ)
    (h1 : exceptIsOk (d.set_thresholds a g).1 = false)
    (h2 : exceptIsOk (d.set_tilt_threshold t).1 = false) :
    (d.set_thresholds a g).2 = d ∧ (d.set_tilt_threshold t).2 = d := by
  constructor
  · unfold MotionDetector.set_thresholds at h1 ⊢
    split_ifs at h1 ⊢ <;> simp_all [exceptIsOk]
  · unfold MotionDetector.set_tilt_threshold at h2 ⊢
    split_ifs at h2 ⊢ <;> simp_all [exceptIsOk]

/-- Witness for C10: a too-small acceleration threshold and an out-of-range
tilt threshold both fail and both leave the fresh detector unchanged. -/
theorem threshold_setters_atomic_on_failure_witness :
    exceptIsOk (MotionDetector.new.set_thresholds 5 1).1 = false ∧
    exceptIsOk (MotionDetector.new.set_tilt_threshold 100).1 = false ∧
    ((MotionDetector.new.set_thresholds 5 1).2 = MotionDetector.new ∧
      (MotionDetector.new.set_tilt_threshold 100).2 = MotionDetector.new) :=
  ⟨by decide, by decide,
    threshold_setters_atomic_on_failure MotionDetector.new 5 1 100 (by decide) (by decide)⟩
